import Mathlib

/-!
Verification of the INTERVEEW job-interview-simulation web application
(src/app.py, src/models.py) against its natural-language specification.

The embedding models the two request handlers that carry all the
application logic — `index` (POST /, which starts an interview) and
`submit_answer` (POST /submit_answer/<interview_id>) — together with the
persistence layer (Interview and Answer rows) as explicit state passing
over a `DB` record of row lists.

External collaborators are modelled by their observable outcomes:
* the Gemini provider call `model.generate_content` and the stdlib
  `json.loads` applied to its reply are both external to the repository,
  so a `ProviderOutcome` value carries the reply text (when the call
  returns one) together with the result of parsing it;
* the authenticated user is the `uid` argument (flask_login guarantees
  one is present on these routes);
* HTML rendering, flash messages and PDF export are elided — no claim
  mentions them.

src/app.py ends, mid-function, at the `Answer(...)` constructor inside
`submit_answer`: the statements that follow it (session add/commit and the
response) are not in the source and are modelled from the spec where
indicated.
-/

namespace Interveew

/-- JSON values as produced by Python `json.loads` and consumed by
`json.dumps`.  Numbers are modelled as `Int`: the application never does
arithmetic on them and no claim involves a fractional score, so JSON
fractional numbers are not needed.  Objects are association lists; those
produced by `json.loads` have pairwise-distinct keys (a Python dict), and
every lookup below is on such an object. -/
inductive JsonValue where
  | null : JsonValue
  | bool : Bool → JsonValue
  | num : Int → JsonValue
  | str : String → JsonValue
  | arr : List JsonValue → JsonValue
  | obj : List (String × JsonValue) → JsonValue
deriving Repr, Inhabited

/-- Escaping of one character inside a JSON string literal, as
`json.dumps` does it for the characters that can occur in this
application's data (quote, backslash and the common control characters;
`ensure_ascii` escaping of non-ASCII text is not needed by any claim,
since the only strings the handlers ever serialize are the four ASCII
STAR keys and boolean values). -/
def escapeChar (c : Char) : String :=
  if c = '"' then "\\\""
  else if c = '\\' then "\\\\"
  else if c = '\n' then "\\n"
  else if c = '\t' then "\\t"
  else if c = '\r' then "\\r"
  else String.singleton c

/-- JSON string-literal escaping, character by character. -/
def escapeString (s : String) : String :=
  String.join (s.toList.map escapeChar)

mutual

/-- Serialization of a JSON value exactly as Python `json.dumps` renders
it with its default separators `", "` and `": "` — this is what
`submit_answer` stores in the `answer.star_detected` text column. -/
def jsonDumps : JsonValue → String
  | .null => "null"
  | .bool b => if b then "true" else "false"
  | .num n => toString n
  | .str s => "\"" ++ escapeString s ++ "\""
  | .arr xs => "[" ++ dumpElems xs ++ "]"
  | .obj fs => "\x7b" ++ dumpFields fs ++ "\x7d"

/-- Comma-separated rendering of array elements. -/
def dumpElems : List JsonValue → String
  | [] => ""
  | [x] => jsonDumps x
  | x :: y :: xs => jsonDumps x ++ ", " ++ dumpElems (y :: xs)

/-- Comma-separated rendering of object fields as `"key": value`. -/
def dumpFields : List (String × JsonValue) → String
  | [] => ""
  | [(k, v)] => "\"" ++ escapeString k ++ "\": " ++ jsonDumps v
  | (k, v) :: f :: fs =>
      "\"" ++ escapeString k ++ "\": " ++ jsonDumps v ++ ", " ++ dumpFields (f :: fs)

end

/-- Interview row (src/models.py lines 24-31).  `total_score` is a SQL
Float column with default 0.0; no handler ever writes or computes with it,
so it is modelled as an `Int` holding the default 0.  `created_at` and the
ORM relationship attribute carry no claim and are elided.  The primary key
is the autoincrement id. -/
structure Interview where
  id : Nat
  user_id : Nat
  job_role : String
  stage : String
  total_score : Int
deriving Repr, DecidableEq

/-- Answer row (src/models.py lines 33-43).  `score` and `feedback`
receive `parsed.get('score', 0)` and `parsed.get('feedback', '')`
verbatim, i.e. arbitrary JSON values taken from the provider reply, so
they are modelled as `JsonValue`; `star_detected` is the text column
holding `json.dumps(...)`.  `created_at` and the relationship attribute
are elided as above. -/
structure Answer where
  id : Nat
  interview_id : Nat
  question : String
  answer_text : String
  score : JsonValue
  feedback : JsonValue
  star_detected : String
  stage : String
deriving Repr

/-- The persistent state: the interview and answer tables as row lists in
insertion order.  Rows are never deleted by any code path (the spec's
lifecycle section confirms no delete path exists), so the autoincrement id
of a fresh row is `length + 1`. -/
structure DB where
  interviews : List Interview
  answers : List Answer
deriving Repr

/-- src/app.py line 35: the four selectable job roles. -/
def JOB_ROLES : List String :=
  ["Data Scientist", "Software Engineer", "IT Support", "UI/UX Designer"]

/-- src/app.py lines 37-56: the static question bank, a nested dict
`QUESTIONS[stage][job_role]`.  A lookup outside the table is a Python
`KeyError`; here it is `none`. -/
def QUESTIONS : String → String → Option String
  | "HR", "Data Scientist" =>
      some "Mengapa Anda tertarik melamar posisi Data Scientist di perusahaan ini?"
  | "HR", "Software Engineer" =>
      some "Apa yang membuat Anda tertarik pada peran Software Engineer di tim kami?"
  | "HR", "IT Support" =>
      some "Bagaimana Anda melihat peran IT Support dalam mendukung operasional perusahaan?"
  | "HR", "UI/UX Designer" =>
      some "Apa motivasi Anda untuk berkarir sebagai UI/UX Designer dan mengapa di sini?"
  | "Behavioral", "Data Scientist" =>
      some "Ceritakan pengalaman Anda menangani dataset besar dan bagaimana Anda mengatasinya (gunakan STAR)."
  | "Behavioral", "Software Engineer" =>
      some "Deskripsikan konflik tim yang Anda selesaikan (gunakan STAR)."
  | "Behavioral", "IT Support" =>
      some "Ceritakan saat Anda menangani masalah teknis mendadak (gunakan STAR)."
  | "Behavioral", "UI/UX Designer" =>
      some "Bagaimana Anda menangani feedback negatif dari user testing (gunakan STAR)?"
  | "Technical", "Data Scientist" =>
      some "Jelaskan bagaimana Anda membangun model machine learning untuk prediksi penjualan."
  | "Technical", "Software Engineer" =>
      some "Bagaimana Anda mengoptimasi kode Python untuk performa tinggi?"
  | "Technical", "IT Support" =>
      some "Jelaskan langkah troubleshooting untuk jaringan yang down."
  | "Technical", "UI/UX Designer" =>
      some "Bagaimana Anda menggunakan tools seperti Figma untuk prototyping responsif?"
  | _, _ => none

/-- The STAR object of the mock evaluation (src/app.py line 121). -/
def mockStar : JsonValue :=
  .obj [("situation", .bool true), ("task", .bool true),
        ("action", .bool false), ("result", .bool true)]

/-- The fixed mock evaluation used when no Gemini key is configured
(src/app.py line 121). -/
def mockParsed : JsonValue :=
  .obj [("score", .num 4),
        ("feedback", .str "Mock feedback: Jawaban baik, tapi tambah detail STAR."),
        ("star_elements_detected", mockStar)]

/-- The all-false STAR object of the degraded parse-failure result
(src/app.py line 132). -/
def allFalseStar : JsonValue :=
  .obj [("situation", .bool false), ("task", .bool false),
        ("action", .bool false), ("result", .bool false)]

/-- The degraded evaluation substituted when `json.loads` fails on the
stripped reply `gemini_output` (src/app.py line 132): score 3, feedback
embedding the first 100 characters of the unparseable reply, all STAR
flags false. -/
def degradedParsed (gemini_output : String) : JsonValue :=
  .obj [("score", .num 3),
        ("feedback", .str ("Error parsing AI response: " ++ gemini_output.take 100 ++ ". Coba lagi.")),
        ("star_elements_detected", allFalseStar)]

/-- Observable outcome of the external interaction in src/app.py lines
127-129.  `callRaises` is an exception raised by `model.generate_content`
(or by reading `response.text`), before the local `gemini_output` is
bound.  `replied text parsed` is a returned reply `text`
(= `response.text`) together with `parsed`, the outcome of the stdlib
call `json.loads(text.strip())` — `.error ()` when the stripped reply is
not valid JSON.  Both the provider and `json` are external libraries, so
the development quantifies over their outcomes. -/
inductive ProviderOutcome where
  | callRaises : ProviderOutcome
  | replied : String → Except Unit JsonValue → ProviderOutcome

/-- src/app.py lines 119-132: the evaluation step of `submit_answer`.
Returns `.ok parsed` with the dict the rest of the handler uses, or
`.error ()` when an exception escapes the handler.

When no key is configured (`model` is None, lines 27-32) the fixed mock
dict is used and the provider is never consulted.  Otherwise, if the
provider call itself raises, the `except` clause catches it (its tuple
includes `Exception`), but the replacement feedback f-string reads
`gemini_output`, which was never assigned on that path: the handler
raises `UnboundLocalError`, which nothing catches — modelled as
`.error ()`.  Only when a reply was obtained and `json.loads` on it fails
is the degraded dict of line 132 produced. -/
def evalAnswer (configured : Bool) (outcome : ProviderOutcome) : Except Unit JsonValue :=
  if configured then
    match outcome with
    | .callRaises => .error ()
    | .replied text parsed =>
        match parsed with
        | .ok v => .ok v
        | .error _ => .ok (degradedParsed text.trim)
  else
    .ok mockParsed

/-- Python truthiness of `data.get(...)` on an optional string field, as
tested by `all([question, answer, job_role])` (src/app.py line 116): an
absent field (None) and the empty string are both falsy. -/
def truthy : Option String → Bool
  | none => false
  | some s => !s.isEmpty

/-- Result of POST / (src/app.py lines 94-104): either the flash +
redirect on an invalid role, or the rendered page carrying the new
interview's id, its stage and the question-bank lookup. -/
inductive StartResult where
  | invalidRole : StartResult
  | started : Nat → String → Option String → StartResult
deriving Repr, DecidableEq

/-- src/app.py lines 94-104: the POST branch of `index`.  Validates the
submitted `job_role` against `JOB_ROLES`; on failure flashes and
redirects without touching the database; on success commits one Interview
row for the current user in stage HR and returns the HR question for the
role. -/
def index_post (s : DB) (uid : Nat) (job_role : String) : DB × StartResult :=
  if JOB_ROLES.contains job_role then
    let stage := "HR"
    let interview : Interview :=
      { id := s.interviews.length + 1, user_id := uid, job_role := job_role,
        stage := stage, total_score := 0 }
    ({ s with interviews := s.interviews ++ [interview] },
     .started interview.id stage (QUESTIONS stage job_role))
  else
    (s, .invalidRole)

/-- Response of POST /submit_answer/<interview_id>: the 400
`\x7b"error": "Missing data"\x7d` body, an unhandled exception (surfaced by the
framework as a 500), or the evaluation JSON. -/
inductive SubmitResult where
  | badRequest : SubmitResult
  | serverError : SubmitResult
  | ok : JsonValue → SubmitResult
deriving Repr

/-- src/app.py lines 107-145: the `submit_answer` handler.

Reads the JSON body fields (`stage` defaulting to "HR", the others
None when absent); returns the 400 error when `question`, `answer` or
`job_role` is falsy; runs the evaluation step (`evalAnswer`); looks the
interview up by primary key and, only when it exists and belongs to the
requesting user, builds the Answer row from `parsed.get(...)` with
defaults 0, '' and an empty STAR object.  `parsed.get` on a value that is
not a dict is an `AttributeError` escaping the handler (`serverError`) —
the `try` of line 126 has already been exited at that point.

Modelled from the spec: src/app.py is cut off immediately after the
`Answer(...)` constructor, so the remaining statements of the handler —
the `db.session.add`/`db.session.commit` persisting the constructed row,
and the final response — are not in the source.  Following §4.3, §6 and
§7 of the spec, the constructed row is appended to the answer table, an
unauthorized or unknown `interview_id` silently skips persistence with no
error surfaced, and the handler's response is the evaluation JSON
(`.ok parsed`). -/
def submit_answer (s : DB) (uid : Nat) (interview_id : Nat)
    (stageField questionField answerField job_roleField : Option String)
    (configured : Bool) (outcome : ProviderOutcome) : DB × SubmitResult :=
  let stage := stageField.getD "HR"
  if !(truthy questionField && truthy answerField && truthy job_roleField) then
    (s, .badRequest)
  else
    match evalAnswer configured outcome with
    | .error _ => (s, .serverError)
    | .ok parsed =>
        match s.interviews.find? (fun i => i.id == interview_id) with
        | some interview =>
            if interview.user_id == uid then
              match parsed with
              | .obj fields =>
                  let newAnswer : Answer :=
                    { id := s.answers.length + 1,
                      interview_id := interview_id,
                      question := questionField.getD "",
                      answer_text := answerField.getD "",
                      score := (fields.lookup "score").getD (.num 0),
                      feedback := (fields.lookup "feedback").getD (.str ""),
                      star_detected := jsonDumps ((fields.lookup "star_elements_detected").getD (.obj [])),
                      stage := stage }
                  ({ s with answers := s.answers ++ [newAnswer] }, .ok parsed)
              | _ => (s, .serverError)
            else
              (s, .ok parsed)
        | none => (s, .ok parsed)

/-! ### Sample states used by concrete witnesses and counterexamples -/

/-- A database holding one interview, id 1, owned by user 7. -/
def sampleDB : DB :=
  { interviews := [{ id := 1, user_id := 7, job_role := "Data Scientist",
                     stage := "HR", total_score := 0 }],
    answers := [] }

/-- The empty database. -/
def emptyDB : DB := { interviews := [], answers := [] }

/-! ### Shared frame lemmas about `submit_answer` -/

/-- No branch of `submit_answer` writes to the interview table. -/
theorem submit_answer_interviews_frame (s : DB) (uid interview_id : Nat)
    (stageField questionField answerField job_roleField : Option String)
    (configured : Bool) (outcome : ProviderOutcome) :
    (submit_answer s uid interview_id stageField questionField answerField
        job_roleField configured outcome).1.interviews = s.interviews := by
  unfold submit_answer
  repeat' split
  all_goals rfl

/-- `submit_answer` either leaves the answer table unchanged or appends
exactly one row to it. -/
theorem submit_answer_answers_frame (s : DB) (uid interview_id : Nat)
    (stageField questionField answerField job_roleField : Option String)
    (configured : Bool) (outcome : ProviderOutcome) :
    (submit_answer s uid interview_id stageField questionField answerField
        job_roleField configured outcome).1.answers = s.answers ∨
    ∃ a, (submit_answer s uid interview_id stageField questionField answerField
        job_roleField configured outcome).1.answers = s.answers ++ [a] := by
  unfold submit_answer
  repeat' split
  all_goals first | exact Or.inl rfl | exact Or.inr ⟨_, rfl⟩

/-- The success path of `submit_answer` in one equation: when all three
required fields are nonempty, the evaluation step produced a JSON object,
and the interview exists and is owned by the requesting user, the handler
appends exactly the row built from `parsed.get(...)` and responds with
the evaluation JSON. -/
theorem submit_answer_stores (s : DB) (uid interview_id : Nat)
    (stageField : Option String) (q a jr : String)
    (configured : Bool) (outcome : ProviderOutcome)
    (fields : List (String × JsonValue)) (interview : Interview)
    (hq : q.isEmpty = false) (ha : a.isEmpty = false) (hjr : jr.isEmpty = false)
    (heval : evalAnswer configured outcome = .ok (.obj fields))
    (hfind : s.interviews.find? (fun i => i.id == interview_id) = some interview)
    (hown : interview.user_id = uid) :
    submit_answer s uid interview_id stageField (some q) (some a) (some jr)
        configured outcome
      = ({ s with answers := s.answers ++
            [{ id := s.answers.length + 1, interview_id := interview_id,
               question := q, answer_text := a,
               score := (fields.lookup "score").getD (.num 0),
               feedback := (fields.lookup "feedback").getD (.str ""),
               star_detected := jsonDumps ((fields.lookup "star_elements_detected").getD (.obj [])),
               stage := stageField.getD "HR" }] },
         .ok (.obj fields)) := by
  unfold submit_answer
  simp [truthy, hq, ha, hjr, heval, hfind, hown]

/-! ### Claim theorems -/

/-- C1: the claim says any exception during the provider call or parsing
yields the fixed degraded result (score 3, truncated fragment, all STAR
flags false).  The code implements this only for parse failures: when the
provider call itself raises, the `except` handler interpolates the
never-assigned local `gemini_output` and itself raises `UnboundLocalError`,
so the request fails with an unhandled error and nothing is stored.  This
theorem evaluates the handler at that failing input: a configured provider
whose call raises, on a database holding the caller's own interview. -/
theorem C1_provider_call_exception_unhandled :
    submit_answer sampleDB 7 1 (some "HR") (some "Why this role?")
        (some "Because I enjoy it.") (some "Data Scientist") true .callRaises
      = (sampleDB, .serverError)
    ∧ sampleDB.answers = [] := ⟨rfl, rfl⟩

/-- C2: with a configured provider whose reply parses as a JSON object
carrying the contract keys, the stored Answer's score, feedback and
serialized STAR flags are exactly the corresponding fields of the parsed
reply. -/
theorem C2_wellformed_reply_stored_exactly (s : DB) (uid interview_id : Nat)
    (stageField : Option String) (q a jr reply : String)
    (fields : List (String × JsonValue)) (sc fb st : JsonValue)
    (interview : Interview)
    (hq : q.isEmpty = false) (ha : a.isEmpty = false) (hjr : jr.isEmpty = false)
    (hsc : fields.lookup "score" = some sc)
    (hfb : fields.lookup "feedback" = some fb)
    (hst : fields.lookup "star_elements_detected" = some st)
    (hfind : s.interviews.find? (fun i => i.id == interview_id) = some interview)
    (hown : interview.user_id = uid) :
    submit_answer s uid interview_id stageField (some q) (some a) (some jr) true
        (.replied reply (.ok (.obj fields)))
      = ({ s with answers := s.answers ++
            [{ id := s.answers.length + 1, interview_id := interview_id,
               question := q, answer_text := a,
               score := sc, feedback := fb,
               star_detected := jsonDumps st,
               stage := stageField.getD "HR" }] },
         .ok (.obj fields)) := by
  rw [submit_answer_stores s uid interview_id stageField q a jr true
        (.replied reply (.ok (.obj fields))) fields interview hq ha hjr rfl hfind hown]
  simp [hsc, hfb, hst]

/-- Concrete reply fields instantiating C2. -/
def c2Fields : List (String × JsonValue) :=
  [("score", .num 5), ("feedback", .str "Bagus dan lengkap."),
   ("star_elements_detected",
    .obj [("situation", .bool true), ("task", .bool true),
          ("action", .bool true), ("result", .bool false)])]

/-- Witness for C2 at a concrete well-formed reply. -/
theorem C2_wellformed_reply_stored_exactly_witness :
    submit_answer sampleDB 7 1 (some "Technical") (some "Q") (some "A")
        (some "Data Scientist") true (.replied "reply" (.ok (.obj c2Fields)))
      = ({ sampleDB with answers :=
            [{ id := 1, interview_id := 1, question := "Q", answer_text := "A",
               score := .num 5, feedback := .str "Bagus dan lengkap.",
               star_detected := "\x7b\"situation\": true, \"task\": true, \"action\": true, \"result\": false\x7d",
               stage := "Technical" }] },
         .ok (.obj c2Fields)) :=
  C2_wellformed_reply_stored_exactly sampleDB 7 1 (some "Technical") "Q" "A"
    "Data Scientist" "reply" c2Fields (.num 5) (.str "Bagus dan lengkap.")
    (.obj [("situation", .bool true), ("task", .bool true),
           ("action", .bool true), ("result", .bool false)])
    { id := 1, user_id := 7, job_role := "Data Scientist", stage := "HR", total_score := 0 }
    rfl rfl rfl rfl rfl rfl rfl rfl

/-- C3: when no provider credential is configured, the evaluation result
is the fixed mock result for every provider outcome (so no provider call
can influence it), and the stored Answer carries score 4, the fixed mock
feedback and the serialized flags situation/task/result true, action
false. -/
theorem C3_unconfigured_always_mock (s : DB) (uid interview_id : Nat)
    (stageField : Option String) (q a jr : String) (outcome : ProviderOutcome)
    (interview : Interview)
    (hq : q.isEmpty = false) (ha : a.isEmpty = false) (hjr : jr.isEmpty = false)
    (hfind : s.interviews.find? (fun i => i.id == interview_id) = some interview)
    (hown : interview.user_id = uid) :
    evalAnswer false outcome = .ok mockParsed
    ∧ submit_answer s uid interview_id stageField (some q) (some a) (some jr)
        false outcome
      = ({ s with answers := s.answers ++
            [{ id := s.answers.length + 1, interview_id := interview_id,
               question := q, answer_text := a,
               score := .num 4,
               feedback := .str "Mock feedback: Jawaban baik, tapi tambah detail STAR.",
               star_detected := "\x7b\"situation\": true, \"task\": true, \"action\": false, \"result\": true\x7d",
               stage := stageField.getD "HR" }] },
         .ok mockParsed) := by
  refine ⟨rfl, ?_⟩
  rw [submit_answer_stores s uid interview_id stageField q a jr false outcome
        [("score", .num 4),
         ("feedback", .str "Mock feedback: Jawaban baik, tapi tambah detail STAR."),
         ("star_elements_detected", mockStar)]
        interview hq ha hjr rfl hfind hown]
  rfl

/-- Witness for C3: even a provider outcome that would crash the
configured path is irrelevant in mock mode. -/
theorem C3_unconfigured_always_mock_witness :
    evalAnswer false .callRaises = .ok mockParsed
    ∧ submit_answer sampleDB 7 1 none (some "q") (some "a")
        (some "Data Scientist") false .callRaises
      = ({ sampleDB with answers :=
            [{ id := 1, interview_id := 1, question := "q", answer_text := "a",
               score := .num 4,
               feedback := .str "Mock feedback: Jawaban baik, tapi tambah detail STAR.",
               star_detected := "\x7b\"situation\": true, \"task\": true, \"action\": false, \"result\": true\x7d",
               stage := "HR" }] },
         .ok mockParsed) :=
  C3_unconfigured_always_mock sampleDB 7 1 none "q" "a" "Data Scientist" .callRaises
    { id := 1, user_id := 7, job_role := "Data Scientist", stage := "HR", total_score := 0 }
    rfl rfl rfl rfl rfl

/-- C5: a POST to / with a job_role outside the enumerated four is
rejected (flash + redirect) and leaves the database unchanged — no
Interview row is created. -/
theorem C5_invalid_role_rejected (s : DB) (uid : Nat) (job_role : String)
    (h : JOB_ROLES.contains job_role = false) :
    index_post s uid job_role = (s, .invalidRole) := by
  have h' : job_role ∉ JOB_ROLES := by simpa using h
  simp [index_post, h']

/-- Witness for C5 at the out-of-set role "Chef". -/
theorem C5_invalid_role_rejected_witness :
    JOB_ROLES.contains "Chef" = false
    ∧ index_post sampleDB 7 "Chef" = (sampleDB, .invalidRole) :=
  ⟨rfl, C5_invalid_role_rejected sampleDB 7 "Chef" rfl⟩

/-- C6: a POST to / with an enumerated job_role appends exactly one
Interview row in stage HR for the current user and returns the
question-bank HR entry for that role (which exists for every enumerated
role). -/
theorem C6_valid_role_starts_hr (s : DB) (uid : Nat) (job_role : String)
    (h : JOB_ROLES.contains job_role = true) :
    index_post s uid job_role
      = ({ s with interviews := s.interviews ++
            [{ id := s.interviews.length + 1, user_id := uid,
               job_role := job_role, stage := "HR", total_score := 0 }] },
         .started (s.interviews.length + 1) "HR" (QUESTIONS "HR" job_role))
    ∧ (QUESTIONS "HR" job_role).isSome = true := by
  constructor
  · have h' : job_role ∈ JOB_ROLES := by simpa using h
    simp [index_post, h']
  · simp [JOB_ROLES] at h
    rcases h with h | h | h | h <;> subst h <;> rfl

/-- Witness for C6 at job_role "Software Engineer": its HR question is
the fixed Software-Engineer prompt string. -/
theorem C6_valid_role_starts_hr_witness :
    JOB_ROLES.contains "Software Engineer" = true
    ∧ (index_post emptyDB 7 "Software Engineer"
        = ({ emptyDB with interviews :=
              [{ id := 1, user_id := 7, job_role := "Software Engineer",
                 stage := "HR", total_score := 0 }] },
           .started 1 "HR" (QUESTIONS "HR" "Software Engineer"))
       ∧ (QUESTIONS "HR" "Software Engineer").isSome = true)
    ∧ QUESTIONS "HR" "Software Engineer"
        = some "Apa yang membuat Anda tertarik pada peran Software Engineer di tim kami?" :=
  ⟨rfl, C6_valid_role_starts_hr emptyDB 7 "Software Engineer" rfl, rfl⟩

/-- C4 counterexample: a JSON body that carries question, answer and
job_role but is missing `stage` is not rejected — `data.get('stage', 'HR')`
silently defaults, the handler responds with the evaluation JSON (not the
400 error) and stores an Answer row, refuting the claim for the `stage`
field. -/
theorem C4_missing_stage_accepted :
    submit_answer sampleDB 7 1 none (some "Pertanyaan HR") (some "Jawaban saya")
        (some "Data Scientist") false .callRaises
      = ({ sampleDB with answers :=
            [{ id := 1, interview_id := 1, question := "Pertanyaan HR",
               answer_text := "Jawaban saya",
               score := .num 4,
               feedback := .str "Mock feedback: Jawaban baik, tapi tambah detail STAR.",
               star_detected := "\x7b\"situation\": true, \"task\": true, \"action\": false, \"result\": true\x7d",
               stage := "HR" }] },
         .ok mockParsed)
    ∧ sampleDB.answers = [] := ⟨rfl, rfl⟩

/-- C4 as amended: a falsy (absent or empty) `question`, `answer` or
`job_role` makes the handler return the 400 "Missing data" error with the
database untouched; a missing `stage` is not an error — it defaults to
"HR". -/
theorem C4_missing_required_field_rejected (s : DB) (uid interview_id : Nat)
    (stageField questionField answerField job_roleField : Option String)
    (configured : Bool) (outcome : ProviderOutcome)
    (h : truthy questionField = false ∨ truthy answerField = false ∨
         truthy job_roleField = false) :
    submit_answer s uid interview_id stageField questionField answerField
        job_roleField configured outcome = (s, .badRequest) := by
  unfold submit_answer
  rcases h with h | h | h <;> simp [h]

/-- Witness for the amended C4 at a body with no `question` field. -/
theorem C4_missing_required_field_rejected_witness :
    truthy none = false
    ∧ submit_answer sampleDB 7 1 (some "HR") none (some "jawab")
        (some "Data Scientist") false .callRaises = (sampleDB, .badRequest) :=
  ⟨rfl, C4_missing_required_field_rejected sampleDB 7 1 (some "HR") none
     (some "jawab") (some "Data Scientist") false .callRaises (Or.inl rfl)⟩

/-- C7: when the interview id does not resolve to an interview owned by
the requesting user — it does not exist, or belongs to someone else — the
handler stores nothing and still responds with the evaluation JSON, so no
error is surfaced. -/
theorem C7_unowned_interview_silent_noop (s : DB) (uid interview_id : Nat)
    (stageField : Option String) (q a jr : String)
    (configured : Bool) (outcome : ProviderOutcome) (parsed : JsonValue)
    (hq : q.isEmpty = false) (ha : a.isEmpty = false) (hjr : jr.isEmpty = false)
    (heval : evalAnswer configured outcome = .ok parsed)
    (hown : ∀ interview,
        s.interviews.find? (fun i => i.id == interview_id) = some interview →
        interview.user_id ≠ uid) :
    submit_answer s uid interview_id stageField (some q) (some a) (some jr)
        configured outcome = (s, .ok parsed) := by
  unfold submit_answer
  simp only [truthy, hq, ha, hjr, heval, Bool.not_false, Bool.and_self,
    Bool.not_true, Bool.false_eq_true, if_false]
  cases hfind : s.interviews.find? (fun i => i.id == interview_id) with
  | none => simp
  | some interview =>
      have hne := hown interview hfind
      simp [hne]

/-- Witness for C7: user 8 submits against user 7's interview; the row
list is unchanged and the mock evaluation is still returned. -/
theorem C7_unowned_interview_silent_noop_witness :
    submit_answer sampleDB 8 1 (some "HR") (some "q1") (some "a1")
        (some "IT Support") false .callRaises = (sampleDB, .ok mockParsed) :=
  C7_unowned_interview_silent_noop sampleDB 8 1 (some "HR") "q1" "a1" "IT Support"
    false .callRaises mockParsed rfl rfl rfl rfl
    (fun interview hfind => by
      have h2 : some ({ id := 1, user_id := 7, job_role := "Data Scientist",
                        stage := "HR", total_score := 0 } : Interview)
          = some interview := hfind
      cases h2
      decide)

/-- C8 counterexample: `submit_answer` stores the client-supplied stage
string without validating it, so an Answer row with stage "Onboarding" —
outside \x7bHR, Behavioral, Technical\x7d — is reachable through the handler. -/
theorem C8_answer_stage_unconstrained :
    ((submit_answer sampleDB 7 1 (some "Onboarding") (some "q2") (some "a2")
        (some "Data Scientist") false .callRaises).1.answers.map
          (fun a => a.stage)) = ["Onboarding"]
    ∧ "Onboarding" ∉ ["HR", "Behavioral", "Technical"] := ⟨rfl, by decide⟩

/-- C8 as amended: the stage invariant holds for Interview rows — the
handlers only ever write stage "HR", which is one of the three named
stages, and `submit_answer` never touches the interview table — while
Answer rows record the client-supplied stage unvalidated. -/
theorem C8_interview_stage_always_hr (s : DB) (uidStart uidSubmit interview_id : Nat)
    (job_role : String)
    (stageField questionField answerField job_roleField : Option String)
    (configured : Bool) (outcome : ProviderOutcome)
    (h : ∀ i ∈ s.interviews, i.stage = "HR") :
    (∀ i ∈ (index_post s uidStart job_role).1.interviews, i.stage = "HR")
    ∧ (∀ i ∈ (submit_answer s uidSubmit interview_id stageField questionField
          answerField job_roleField configured outcome).1.interviews,
        i.stage = "HR") := by
  constructor
  · intro i hi
    unfold index_post at hi
    by_cases hc : JOB_ROLES.contains job_role = true
    · rw [if_pos hc] at hi
      simp only [List.mem_append, List.mem_singleton] at hi
      rcases hi with hi | hi
      · exact h i hi
      · rw [hi]
    · rw [if_neg hc] at hi
      exact h i hi
  · intro i hi
    rw [submit_answer_interviews_frame] at hi
    exact h i hi

/-- Witness for the amended C8 on the sample database (whose one
interview is in stage HR). -/
theorem C8_interview_stage_always_hr_witness :
    (∀ i ∈ (index_post sampleDB 9 "IT Support").1.interviews, i.stage = "HR")
    ∧ (∀ i ∈ (submit_answer sampleDB 7 1 (some "Onboarding") (some "q2")
          (some "a2") (some "Data Scientist") false .callRaises).1.interviews,
        i.stage = "HR") :=
  C8_interview_stage_always_hr sampleDB 9 7 1 "IT Support" (some "Onboarding")
    (some "q2") (some "a2") (some "Data Scientist") false .callRaises (by decide)

/-- C9: `submit_answer` is insert-only with respect to the database — the
interview table is returned exactly as it was (so every field of every
existing Interview row, `total_score` and `stage` included, keeps its
prior value) and the answer table is either unchanged or extended by
exactly one new row at the end. -/
theorem C9_submit_answer_frame (s : DB) (uid interview_id : Nat)
    (stageField questionField answerField job_roleField : Option String)
    (configured : Bool) (outcome : ProviderOutcome) :
    (submit_answer s uid interview_id stageField questionField answerField
        job_roleField configured outcome).1.interviews = s.interviews
    ∧ ((submit_answer s uid interview_id stageField questionField answerField
          job_roleField configured outcome).1.answers = s.answers
       ∨ ∃ a, (submit_answer s uid interview_id stageField questionField
          answerField job_roleField configured outcome).1.answers
            = s.answers ++ [a]) :=
  ⟨submit_answer_interviews_frame s uid interview_id stageField questionField
      answerField job_roleField configured outcome,
   submit_answer_answers_frame s uid interview_id stageField questionField
      answerField job_roleField configured outcome⟩

/-- C10 counterexample: a provider reply that is valid JSON but not an
object — here the bare number 5 — certainly "lacks the keys", yet no
Answer with default values is stored: `parsed.get` is an `AttributeError`
on a non-dict, raised outside the `try`, so the request fails with an
unhandled error and the database is untouched. -/
theorem C10_nonobject_reply_crashes :
    submit_answer sampleDB 7 1 (some "HR") (some "q3") (some "a3")
        (some "Data Scientist") true (.replied "5" (.ok (.num 5)))
      = (sampleDB, .serverError)
    ∧ sampleDB.answers = [] := ⟨rfl, rfl⟩

/-- C10 as amended: when the reply parses as a JSON *object* lacking the
keys score, feedback and star_elements_detected, the stored Answer takes
the defaults — score 0 (outside the documented 1-5 range), empty
feedback, and the serialized empty STAR object. -/
theorem C10_object_missing_keys_defaults (s : DB) (uid interview_id : Nat)
    (stageField : Option String) (q a jr reply : String)
    (fields : List (String × JsonValue)) (interview : Interview)
    (hq : q.isEmpty = false) (ha : a.isEmpty = false) (hjr : jr.isEmpty = false)
    (hsc : fields.lookup "score" = none)
    (hfb : fields.lookup "feedback" = none)
    (hst : fields.lookup "star_elements_detected" = none)
    (hfind : s.interviews.find? (fun i => i.id == interview_id) = some interview)
    (hown : interview.user_id = uid) :
    submit_answer s uid interview_id stageField (some q) (some a) (some jr) true
        (.replied reply (.ok (.obj fields)))
      = ({ s with answers := s.answers ++
            [{ id := s.answers.length + 1, interview_id := interview_id,
               question := q, answer_text := a,
               score := .num 0, feedback := .str "",
               star_detected := "\x7b\x7d",
               stage := stageField.getD "HR" }] },
         .ok (.obj fields)) := by
  rw [submit_answer_stores s uid interview_id stageField q a jr true
        (.replied reply (.ok (.obj fields))) fields interview hq ha hjr rfl hfind hown]
  simp only [hsc, hfb, hst, Option.getD_none]
  rfl

/-- Witness for the amended C10 at a reply object carrying only an
unrelated key. -/
theorem C10_object_missing_keys_defaults_witness :
    submit_answer sampleDB 7 1 none (some "q4") (some "a4")
        (some "Data Scientist") true (.replied "x" (.ok (.obj [("skor", .num 2)])))
      = ({ sampleDB with answers :=
            [{ id := 1, interview_id := 1, question := "q4", answer_text := "a4",
               score := .num 0, feedback := .str "",
               star_detected := "\x7b\x7d", stage := "HR" }] },
         .ok (.obj [("skor", .num 2)])) :=
  C10_object_missing_keys_defaults sampleDB 7 1 none "q4" "a4" "Data Scientist" "x"
    [("skor", .num 2)]
    { id := 1, user_id := 7, job_role := "Data Scientist", stage := "HR", total_score := 0 }
    rfl rfl rfl rfl rfl rfl rfl rfl

end Interveew
